import Mathlib

/-!
# ProfitRider backend — verification of the session derivation engine

Shallow embedding of the financial computation engine of the ProfitRider
backend (`api/models.py`, `api/serializers.py`, `api/views.py`).

Python `Decimal` values are modelled as `ℚ` (exact fixed-point decimal
arithmetic); `date`/`time` values as a `Date` record and seconds-within-day
counts.  A `try: self.user.profile ... except: ...` block is modelled by an
`Option UserProfile` argument: `none` means the profile lookup raised.
The Django queryset check `WorkSession.objects.filter(user=..., date=...)`
(excluding `self.pk` on update) is modelled by the `existsOtherSameDate`
Boolean argument, and by an explicit fold over previously saved sessions in
`saveAll`.
-/

/-- Calendar date, as Python `datetime.date` (year ≥ 1 in practice). -/
structure Date where
  year : Nat
  month : Nat
  day : Nat
deriving DecidableEq, Repr

/-- Python `calendar.isleap`. -/
def isLeapYear (y : Nat) : Bool :=
  (y % 4 == 0 && y % 100 != 0) || (y % 400 == 0)

/-- `calendar.monthrange(year, month)[1]`: number of days in a month,
leap years accounted for. -/
def daysInMonth (y m : Nat) : Nat :=
  if m = 2 then (if isLeapYear y then 29 else 28)
  else if m = 4 ∨ m = 6 ∨ m = 9 ∨ m = 11 then 30
  else 31

/-- Days in months `1..m-1` of year `y`. -/
def daysBeforeMonth (y m : Nat) : Nat :=
  (List.range (m - 1)).foldl (fun acc i => acc + daysInMonth y (i + 1)) 0

/-- Proleptic-Gregorian ordinal of a date, as Python `date.toordinal`
(`0001-01-01` ↦ 1). -/
def rataDie (d : Date) : Nat :=
  365 * (d.year - 1) + (d.year - 1) / 4 - (d.year - 1) / 100 + (d.year - 1) / 400
    + daysBeforeMonth d.year d.month + d.day

/-- Python `date.weekday()`: Monday = 0, ..., Sunday = 6
(`date(1,1,1)` is a Monday). -/
def pyWeekday (d : Date) : Nat :=
  (rataDie d - 1) % 7

/-- `api.models.Country`: static reference data read by the engine. -/
structure Country where
  tax_rate_percentage : ℚ
deriving DecidableEq, Repr

/-- `api.models.UserProfile` — the per-user configuration fields the
derivation engine reads.  `transport_type` holds the stored choice value
(`"bicycle" | "motorcycle" | "car" | "scooter"`, the last being the
Electric Scooter choice); `courier_type` holds
`"SOLOPRENEUR" | "FLEET_COMPANY"`; `rent_frequency` holds
`"daily" | "weekly" | "monthly"`. -/
structure UserProfile where
  country : Option Country
  transport_type : String
  courier_type : String
  fee_percent : ℚ
  rent_frequency : String
  rent_amount : ℚ
  credits : Int
  is_pro : Bool
deriving DecidableEq, Repr

/-- `api.models.WorkSession` — raw input fields together with the derived
fields that `WorkSession.save` fills in.  Times are seconds within the day. -/
structure WorkSession where
  date : Date
  start_time : Nat
  end_time : Nat
  total_orders : Nat
  total_distance_km : ℚ
  gross_earnings : ℚ
  tips : ℚ
  fuel_cost : ℚ
  vehicle_rent : ℚ
  depreciation_cost : ℚ
  other_expenses : ℚ
  platform_fees : ℚ
  application_fee : ℚ
  total_earnings : ℚ
  tax_estimate : ℚ
  net_profit : ℚ
  duration_hours : ℚ
  profit_per_hour : ℚ
  profit_per_km : ℚ
  profit_per_order : ℚ
deriving DecidableEq, Repr

/-- Duration block of `WorkSession.save` (models.py): combine both times on a
dummy date, add one day to the end when it is strictly earlier than the
start, subtract, and convert seconds to hours. -/
def computeDuration (start_time end_time : Nat) : ℚ :=
  let endAdj : Int := if end_time < start_time then (end_time : Int) + 86400 else end_time
  ((endAdj - (start_time : Int) : Int) : ℚ) / 3600

/-- The `daily_cost` computed by the rent block of `WorkSession.save`:
initialised to 0, then set by the `daily` / `weekly` / `monthly` branches. -/
def dailyRentCost (p : UserProfile) (d : Date) : ℚ :=
  if p.rent_frequency = "daily" then p.rent_amount
  else if p.rent_frequency = "weekly" then p.rent_amount / 7
  else if p.rent_frequency = "monthly" then
    p.rent_amount / (daysInMonth d.year d.month : ℚ)
  else 0

namespace WorkSession

/-- `WorkSession.save` (models.py lines 119–229).  `profile` is `none` when
the `self.user.profile` lookup raises; `existsOtherSameDate` is the result of
the `WorkSession.objects.filter(user, date)` existence check (with `self`
excluded when updating).  Note that the rent `try/except` handler is `pass`:
on a resolution failure `vehicle_rent` keeps its incoming value, while the
application-fee handler explicitly resets the fee to zero. -/
def save (profile : Option UserProfile) (existsOtherSameDate : Bool)
    (s : WorkSession) : WorkSession :=
  let duration := computeDuration s.start_time s.end_time
  let rent : ℚ :=
    match profile with
    | none => s.vehicle_rent
    | some p => if existsOtherSameDate then 0 else dailyRentCost p s.date
  let fee : ℚ :=
    match profile with
    | none => 0
    | some p =>
        if p.courier_type = "SOLOPRENEUR" then 0
        else s.gross_earnings * (p.fee_percent / 100)
  let total_earnings := s.gross_earnings + s.tips
  let total_costs := s.fuel_cost + rent + s.depreciation_cost
    + s.other_expenses + s.platform_fees + fee
  let tax_rate : ℚ :=
    match profile with
    | none => 0
    | some p =>
        match p.country with
        | none => 0
        | some c => c.tax_rate_percentage / 100
  let pre_tax_profit := total_earnings - total_costs
  let tax := if pre_tax_profit > 0 then pre_tax_profit * tax_rate else 0
  let net := pre_tax_profit - tax
  { s with
    duration_hours := duration
    vehicle_rent := rent
    application_fee := fee
    total_earnings := total_earnings
    tax_estimate := tax
    net_profit := net
    profit_per_hour := if duration > 0 then net / duration else 0
    profit_per_km := if s.total_distance_km > 0 then net / s.total_distance_km else 0
    profit_per_order := if s.total_orders > 0 then net / (s.total_orders : ℚ) else 0 }

end WorkSession

/-- Python `str.lower()` (character-wise lowering; the transport-type choice
values are ASCII). -/
def pyLower (s : String) : String := ⟨s.data.map Char.toLower⟩

/-- The fuel-cost enforcement shared by `WorkSessionSerializer.create` and
`WorkSessionSerializer.update` (serializers.py lines 54–77): when the request
user has a profile whose lower-cased transport type is `bicycle` or `scooter`,
the incoming `fuel_cost` in `validated_data` is overwritten with 0; otherwise
the submitted value is kept. -/
def serializerEnforceFuel (profile : Option UserProfile) (fuel : ℚ) : ℚ :=
  match profile with
  | none => fuel
  | some p =>
      let t := if p.transport_type = "" then "" else pyLower p.transport_type
      if t = "bicycle" ∨ t = "scooter" then 0 else fuel

/-- A create or update through the API: the serializer's fuel-cost
enforcement applied to `validated_data`, followed by the model `save`. -/
def apiSaveSession (profile : Option UserProfile) (existsOtherSameDate : Bool)
    (s : WorkSession) : WorkSession :=
  WorkSession.save profile existsOtherSameDate
    { s with fuel_cost := serializerEnforceFuel profile s.fuel_cost }

/-- Sequentially create sessions for one user, accumulating the rows already
persisted: each save sees `existsOtherSameDate` = "some already-saved session
has the same date", exactly the queryset existence check of
`WorkSession.save` for a fresh record (no `pk` to exclude). -/
def saveAllAux (profile : Option UserProfile) (acc : List WorkSession) :
    List WorkSession → List WorkSession
  | [] => acc
  | s :: rest =>
      let existsOther := acc.any fun t => decide (t.date = s.date)
      saveAllAux profile (acc ++ [WorkSession.save profile existsOther s]) rest

/-- All sessions persisted after sequentially creating `inputs` (in order)
for a user with the given profile, starting from an empty table. -/
def saveAll (profile : Option UserProfile) (inputs : List WorkSession) :
    List WorkSession :=
  saveAllAux profile [] inputs

/-- The distinct failure raised by `WorkSessionViewSet.perform_create`
(views.py lines 20–23, HTTP 402 `CREDITS_EXHAUSTED`). -/
inductive ApiError where
  | CreditsExhausted
deriving DecidableEq, Repr

/-- `WorkSessionViewSet.perform_create` (views.py lines 191–220), sequential
semantics.  For a non-pro user the credit balance is checked (twice: once
before and once inside the locked transaction, which coincide in a sequential
run), `CreditsExhausted` is raised when it is below 10 — leaving balance and
session table untouched — and otherwise 10 credits are deducted before the
session row is persisted.  A pro user skips the credit logic entirely.
Returns the new `(credits, sessions)` state, or the error. -/
def perform_create (profile : Option UserProfile) (is_pro : Bool) (credits : Int)
    (sessions : List WorkSession) (s : WorkSession) :
    Except ApiError (Int × List WorkSession) :=
  let existsOther := sessions.any fun t => decide (t.date = s.date)
  if !is_pro then
    if credits < 10 then .error .CreditsExhausted
    else if credits < 10 then .error .CreditsExhausted
    else .ok (credits - 10, sessions ++ [apiSaveSession profile existsOther s])
  else .ok (credits, sessions ++ [apiSaveSession profile existsOther s])

/-- Sum of one numeric column over a queryset, as the `Sum(...)` aggregates of
`DashboardMetricsView.get` (an empty queryset's `None` is coalesced to 0 by
the `or Decimal(0)` in the view, which coincides with the empty sum). -/
def sumBy (f : WorkSession → ℚ) (l : List WorkSession) : ℚ :=
  (l.map f).sum

/-- The period filter of `DashboardMetricsView.get` (views.py lines 239–253):
`today` filters on the reference date, `week` on the Monday–Sunday window
containing it (via `today - timedelta(days=today.weekday())`), `month` on the
reference date's calendar year and month, and anything else selects all. -/
def periodQueryset (period : String) (today : Date) (all : List WorkSession) :
    List WorkSession :=
  if period = "today" then all.filter fun s => decide (s.date = today)
  else if period = "week" then
    let start : Int := (rataDie today : Int) - pyWeekday today
    all.filter fun s => decide (start ≤ (rataDie s.date : Int)
      ∧ (rataDie s.date : Int) ≤ start + 6)
  else if period = "month" then
    all.filter fun s => decide (s.date.year = today.year ∧ s.date.month = today.month)
  else all

/-- Ordering key for `order_by('-date', '-start_time')`: date ordinal first,
then start time. -/
def recencyKey (s : WorkSession) : Lex (Nat × Nat) :=
  toLex (rataDie s.date, s.start_time)

/-- `a` may precede `b` in a queryset ordered by `('-date', '-start_time')`:
`b`'s (date, start time) key is at most `a`'s, lexicographically. -/
def moreRecent (a b : WorkSession) : Bool :=
  decide (recencyKey b ≤ recencyKey a)

/-- The recent-sessions query of `DashboardMetricsView.get` (views.py lines
300–304): all of the user's sessions ordered by descending date then
descending start time, truncated to 5.  It is built from
`WorkSession.objects.filter(user=user)`, not from the period queryset. -/
def recentSessions (all : List WorkSession) : List WorkSession :=
  (all.mergeSort moreRecent).take 5

/-- The payload assembled by `DashboardMetricsView.get` (the fields the
claims are about). -/
structure DashboardResult where
  total_net_profit : ℚ
  total_earnings : ℚ
  total_costs : ℚ
  avg_profit_per_hour : ℚ
  total_duration_hours : ℚ
  total_distance_km : ℚ
  session_count : Nat
  recent_sessions : List WorkSession
deriving Repr

/-- `DashboardMetricsView.get` (views.py lines 225–318): aggregate the period
queryset column-wise, add the five cost-component sums into `total_costs`
(the application fee is not among them), guard the average against a zero
total duration, and attach the period-independent recent-sessions list. -/
def dashboardMetrics (period : String) (today : Date) (all : List WorkSession) :
    DashboardResult :=
  let qs := periodQueryset period today all
  let total_profit := sumBy (·.net_profit) qs
  let total_duration := sumBy (·.duration_hours) qs
  { total_net_profit := total_profit
    total_earnings := sumBy (·.total_earnings) qs
    total_costs := sumBy (·.fuel_cost) qs + sumBy (·.vehicle_rent) qs
      + sumBy (·.depreciation_cost) qs + sumBy (·.other_expenses) qs
      + sumBy (·.platform_fees) qs
    avg_profit_per_hour := if total_duration > 0 then total_profit / total_duration else 0
    total_duration_hours := total_duration
    total_distance_km := sumBy (·.total_distance_km) qs
    session_count := qs.length
    recent_sessions := recentSessions all }

/-! ## Concrete records used by examples and witnesses -/

/-- A session record with neutral raw inputs (9:00–11:00 shift, all amounts
zero); concrete inputs are built from it by record update. -/
def baseSession : WorkSession where
  date := ⟨2025, 3, 10⟩
  start_time := 9 * 3600
  end_time := 11 * 3600
  total_orders := 0
  total_distance_km := 0
  gross_earnings := 0
  tips := 0
  fuel_cost := 0
  vehicle_rent := 0
  depreciation_cost := 0
  other_expenses := 0
  platform_fees := 0
  application_fee := 0
  total_earnings := 0
  tax_estimate := 0
  net_profit := 0
  duration_hours := 0
  profit_per_hour := 0
  profit_per_km := 0
  profit_per_order := 0

/-- A solopreneur car driver in a 10% tax country with zero rent
configured. -/
def profileNoRent : UserProfile where
  country := some ⟨10⟩
  transport_type := "car"
  courier_type := "SOLOPRENEUR"
  fee_percent := 0
  rent_frequency := "daily"
  rent_amount := 0
  credits := 300
  is_pro := false

/-! ## Small computation lemmas -/

theorem pyLower_bicycle : pyLower "bicycle" = "bicycle" := by decide

theorem pyLower_scooter : pyLower "scooter" = "scooter" := by decide

theorem pyLower_motorcycle : pyLower "motorcycle" = "motorcycle" := by decide

theorem pyLower_car : pyLower "car" = "car" := by decide

/-- `save` never touches the submitted `fuel_cost` column. -/
theorem save_fuel_cost (profile : Option UserProfile) (b : Bool) (s : WorkSession) :
    (WorkSession.save profile b s).fuel_cost = s.fuel_cost := rfl

/-- The tax-rate percentage `WorkSession.save` resolves: the profile's
country's rate, 0 when the profile has no country set (or the profile lookup
raised). -/
def countryTaxRatePct (profile : Option UserProfile) : ℚ :=
  match profile with
  | none => 0
  | some p =>
      match p.country with
      | none => 0
      | some c => c.tax_rate_percentage

/-- Pre-tax profit read back from a saved record's stored columns. -/
def preTaxProfit (w : WorkSession) : ℚ :=
  w.total_earnings - (w.fuel_cost + w.vehicle_rent + w.depreciation_cost
    + w.other_expenses + w.platform_fees + w.application_fee)

/-! ## Claims -/

/-- C3: the derived `duration_hours` equals `(end − start)` in hours when the
end time is not earlier than the start time, and `(end + 24h − start)` in
hours when the end time is strictly earlier than the start time (a shift
crossing midnight); in particular a 23:00–01:00 shift lasts exactly 2 hours. -/
theorem C3_duration_crosses_midnight (profile : Option UserProfile) (b : Bool)
    (s : WorkSession) :
    ((s.start_time ≤ s.end_time →
        (WorkSession.save profile b s).duration_hours
          = ((s.end_time : ℚ) - (s.start_time : ℚ)) / 3600)
      ∧ (s.end_time < s.start_time →
        (WorkSession.save profile b s).duration_hours
          = ((s.end_time : ℚ) + 86400 - (s.start_time : ℚ)) / 3600))
    ∧ computeDuration (23 * 3600) (1 * 3600) = 2 := by
  have hdur : (WorkSession.save profile b s).duration_hours
      = computeDuration s.start_time s.end_time := rfl
  refine ⟨⟨fun h => ?_, fun h => ?_⟩, by norm_num [computeDuration]⟩
  · rw [hdur]
    simp only [computeDuration]
    rw [if_neg (by omega)]
    push_cast
    ring
  · rw [hdur]
    simp only [computeDuration]
    rw [if_pos h]
    push_cast
    ring

/-- Witness for `C3_duration_crosses_midnight`: a 9:00–11:00 shift and a
23:00–01:00 shift both derive a duration of exactly 2 hours. -/
theorem C3_duration_crosses_midnight_witness :
    (WorkSession.save none false baseSession).duration_hours = 2
    ∧ (WorkSession.save none false
        { baseSession with start_time := 23 * 3600, end_time := 1 * 3600 }).duration_hours = 2 := by
  constructor
  · have h := (C3_duration_crosses_midnight none false baseSession).1.1 (by decide)
    rw [h]
    norm_num [baseSession]
  · have h := (C3_duration_crosses_midnight none false
      { baseSession with start_time := 23 * 3600, end_time := 1 * 3600 }).1.2 (by decide)
    rw [h]
    norm_num [baseSession]

/-- C4: the stored tax estimate equals pre-tax profit × (country tax rate /
100) when the pre-tax profit is strictly positive and 0 otherwise (also at
exactly zero or negative profit); the rate is 0 when the profile has no
country; and the stored net profit is pre-tax profit minus the tax
estimate. -/
theorem C4_tax_estimate_and_net_profit (profile : Option UserProfile) (b : Bool)
    (s : WorkSession) :
    ((WorkSession.save profile b s).tax_estimate
      = if 0 < preTaxProfit (WorkSession.save profile b s)
          then preTaxProfit (WorkSession.save profile b s) * (countryTaxRatePct profile / 100)
          else 0)
    ∧ (WorkSession.save profile b s).net_profit
        = preTaxProfit (WorkSession.save profile b s)
          - (WorkSession.save profile b s).tax_estimate := by
  rcases profile with _ | p
  · exact ⟨by simp [WorkSession.save, preTaxProfit, countryTaxRatePct], rfl⟩
  · rcases hc : p.country with _ | c
    · constructor
      · simp [WorkSession.save, preTaxProfit, countryTaxRatePct, hc]
      · rfl
    · constructor
      · simp [WorkSession.save, preTaxProfit, countryTaxRatePct, hc]
      · rfl

/-- C8: the three stored KPIs are guarded divisions of the stored net profit
by the stored duration, distance and order count, yielding 0 whenever the
divisor is not strictly positive. -/
theorem C8_guarded_kpi_divisions (profile : Option UserProfile) (b : Bool)
    (s : WorkSession) :
    ((WorkSession.save profile b s).profit_per_hour
      = if 0 < (WorkSession.save profile b s).duration_hours
          then (WorkSession.save profile b s).net_profit
            / (WorkSession.save profile b s).duration_hours
          else 0)
    ∧ ((WorkSession.save profile b s).profit_per_km
      = if 0 < (WorkSession.save profile b s).total_distance_km
          then (WorkSession.save profile b s).net_profit
            / (WorkSession.save profile b s).total_distance_km
          else 0)
    ∧ ((WorkSession.save profile b s).profit_per_order
      = if 0 < (WorkSession.save profile b s).total_orders
          then (WorkSession.save profile b s).net_profit
            / ((WorkSession.save profile b s).total_orders : ℚ)
          else 0) :=
  ⟨rfl, rfl, rfl⟩

/-- C6: on gross 100.00, tips 10.00, fuel 5.00, maintenance 2.00, all other
costs and fees 0, a 10% country tax rate and a 2-hour shift, the engine
derives total earnings 110.00, net profit 92.70 and profit per hour 46.35. -/
theorem C6_worked_example :
    ((WorkSession.save (some profileNoRent) false
        { baseSession with gross_earnings := 100, tips := 10,
                           fuel_cost := 5, depreciation_cost := 2 }).total_earnings = 110)
    ∧ ((WorkSession.save (some profileNoRent) false
        { baseSession with gross_earnings := 100, tips := 10,
                           fuel_cost := 5, depreciation_cost := 2 }).net_profit = 92.70)
    ∧ ((WorkSession.save (some profileNoRent) false
        { baseSession with gross_earnings := 100, tips := 10,
                           fuel_cost := 5, depreciation_cost := 2 }).profit_per_hour = 46.35) := by
  norm_num [WorkSession.save, profileNoRent, baseSession, computeDuration, dailyRentCost]

/-- C2: a session created or updated through the API serializer stores fuel
cost 0 whenever the owning profile's transport type is `bicycle` or `scooter`
(the Electric Scooter choice), whatever the client submitted, and stores the
submitted fuel cost unchanged for `motorcycle` and `car`. -/
theorem C2_fuel_cost_enforcement (p : UserProfile) (b : Bool) (s : WorkSession) :
    ((p.transport_type = "bicycle" ∨ p.transport_type = "scooter") →
      (apiSaveSession (some p) b s).fuel_cost = 0)
    ∧ ((p.transport_type = "motorcycle" ∨ p.transport_type = "car") →
      (apiSaveSession (some p) b s).fuel_cost = s.fuel_cost) := by
  constructor
  · rintro (h | h) <;>
      simp [apiSaveSession, save_fuel_cost, serializerEnforceFuel, h,
        pyLower_bicycle, pyLower_scooter]
  · rintro (h | h) <;>
      simp [apiSaveSession, save_fuel_cost, serializerEnforceFuel, h,
        pyLower_motorcycle, pyLower_car]

/-- Witness for `C2_fuel_cost_enforcement`: a bicycle rider submitting a fuel
cost of 5 gets 0 stored; a car driver submitting 5 gets 5 stored. -/
theorem C2_fuel_cost_enforcement_witness :
    (apiSaveSession (some { profileNoRent with transport_type := "bicycle" }) false
        { baseSession with fuel_cost := 5 }).fuel_cost = 0
    ∧ (apiSaveSession (some profileNoRent) false
        { baseSession with fuel_cost := 5 }).fuel_cost
      = ({ baseSession with fuel_cost := 5 } : WorkSession).fuel_cost :=
  ⟨(C2_fuel_cost_enforcement { profileNoRent with transport_type := "bicycle" } false
      { baseSession with fuel_cost := 5 }).1 (Or.inl rfl),
   (C2_fuel_cost_enforcement profileNoRent false
      { baseSession with fuel_cost := 5 }).2 (Or.inr rfl)⟩

/-- C5 counterexample: with the profile lookup raising (`none`) and a
caller-supplied `vehicle_rent` of 5, the saved session keeps the
caller-supplied rent 5 — it is not defaulted to zero (the rent `except`
handler is `pass`, and `vehicle_rent` is a writable serializer field). -/
theorem C5_counterexample :
    (WorkSession.save none false { baseSession with vehicle_rent := 5 }).vehicle_rent = 5
    ∧ (5 : ℚ) ≠ 0 :=
  ⟨rfl, by norm_num⟩

/-- C5 amended: when the profile (or its rent configuration) cannot be
resolved, the save completes and leaves `vehicle_rent` at its incoming field
value — the field default 0 when the caller supplied nothing, but a
caller-supplied value is kept, not zeroed. -/
theorem C5_amended_rent_kept_on_failure (b : Bool) (s : WorkSession) :
    (WorkSession.save none b s).vehicle_rent = s.vehicle_rent := rfl

/-- C9: for a non-pro user, `perform_create` raises the distinct
`CreditsExhausted` error when the balance is below 10 — persisting no session
and leaving the balance untouched (an error carries no new state) — and
otherwise deducts exactly 10 credits and appends the saved session; a pro
user is never checked or charged. -/
theorem C9_credit_gate (profile : Option UserProfile) (credits : Int)
    (sessions : List WorkSession) (s : WorkSession) :
    (credits < 10 →
      perform_create profile false credits sessions s = .error .CreditsExhausted)
    ∧ (10 ≤ credits →
      perform_create profile false credits sessions s
        = .ok (credits - 10,
            sessions ++ [apiSaveSession profile
              (sessions.any fun t => decide (t.date = s.date)) s]))
    ∧ perform_create profile true credits sessions s
        = .ok (credits,
            sessions ++ [apiSaveSession profile
              (sessions.any fun t => decide (t.date = s.date)) s]) := by
  refine ⟨fun h => ?_, fun h => ?_, ?_⟩
  · simp [perform_create, h]
  · have h' : ¬ credits < 10 := by omega
    simp [perform_create, h']
  · simp [perform_create]

/-- Witness for `C9_credit_gate`: with 5 credits a non-pro creation fails
with `CreditsExhausted`; with 300 credits it succeeds leaving 290. -/
theorem C9_credit_gate_witness :
    perform_create none false 5 [] baseSession = .error .CreditsExhausted
    ∧ perform_create none false 300 [] baseSession
        = .ok (300 - 10,
            [] ++ [apiSaveSession none
              (([] : List WorkSession).any fun t => decide (t.date = baseSession.date))
              baseSession]) :=
  ⟨(C9_credit_gate none 5 [] baseSession).1 (by norm_num),
   (C9_credit_gate none 300 [] baseSession).2.1 (by norm_num)⟩

/-- C7: the dashboard's report-level `total_costs` is the sum over the
period's selected sessions of exactly the five cost components — fuel,
vehicle rent, depreciation, other expenses, platform fees — the application
fee not among them. -/
theorem C7_dashboard_total_costs (period : String) (today : Date)
    (all : List WorkSession) :
    (dashboardMetrics period today all).total_costs
      = ((periodQueryset period today all).map fun s =>
          s.fuel_cost + s.vehicle_rent + s.depreciation_cost
            + s.other_expenses + s.platform_fees).sum := by
  have key : ∀ l : List WorkSession,
      (l.map (·.fuel_cost)).sum + (l.map (·.vehicle_rent)).sum
        + (l.map (·.depreciation_cost)).sum + (l.map (·.other_expenses)).sum
        + (l.map (·.platform_fees)).sum
      = (l.map fun s => s.fuel_cost + s.vehicle_rent + s.depreciation_cost
          + s.other_expenses + s.platform_fees).sum := by
    intro l
    induction l with
    | nil => simp
    | cons a t ih =>
        simp only [List.map_cons, List.sum_cons] at ih ⊢
        linarith
  simpa only [dashboardMetrics, sumBy] using key (periodQueryset period today all)

/-- `save` keeps the session's date. -/
theorem save_date (profile : Option UserProfile) (b : Bool) (s : WorkSession) :
    (WorkSession.save profile b s).date = s.date := rfl

/-- Rent written by `save` when the profile resolves: the daily figure when
the same-date existence check fails, zero when it succeeds. -/
theorem save_rent (p : UserProfile) (b : Bool) (s : WorkSession) :
    (WorkSession.save (some p) b s).vehicle_rent
      = if b then 0 else dailyRentCost p s.date := by
  cases b <;> rfl

/-- Once some already-saved row shares the date, every later same-date save
sees the existence check succeed, so it is saved with the flag set. -/
theorem saveAllAux_after_first (profile : Option UserProfile) (d : Date) :
    ∀ (rest acc : List WorkSession),
      (∀ s ∈ rest, s.date = d) → (∃ t ∈ acc, t.date = d) →
      saveAllAux profile acc rest
        = acc ++ rest.map (WorkSession.save profile true) := by
  intro rest
  induction rest with
  | nil => intro acc _ _; simp [saveAllAux]
  | cons s rest ih =>
      intro acc hdate hex
      have hs : s.date = d := hdate s (by simp)
      have hany : (acc.any fun t => decide (t.date = s.date)) = true := by
        rcases hex with ⟨t, ht, htd⟩
        exact List.any_eq_true.mpr ⟨t, ht, by simp [htd, hs]⟩
      simp only [saveAllAux, hany]
      rw [ih (acc ++ [WorkSession.save profile true s])
        (fun u hu => hdate u (by simp [hu]))
        ⟨WorkSession.save profile true s, by simp, by simp [save_date, hs]⟩]
      simp

/-- Sequentially creating sessions that all share one date saves the first
with the existence check failing and every later one with it succeeding. -/
theorem saveAll_same_date (profile : Option UserProfile) (d : Date)
    (s0 : WorkSession) (rest : List WorkSession) (hs0 : s0.date = d)
    (hrest : ∀ s ∈ rest, s.date = d) :
    saveAll profile (s0 :: rest)
      = WorkSession.save profile false s0
        :: rest.map (WorkSession.save profile true) := by
  simp only [saveAll, saveAllAux, List.any_nil, List.nil_append]
  rw [saveAllAux_after_first profile d rest [WorkSession.save profile false s0]
    hrest ⟨WorkSession.save profile false s0, by simp, by simp [save_date, hs0]⟩]
  simp

/-- C1 counterexample: a resolvable profile whose configured rent is zero
(`rent_amount = 0`, daily frequency) and two sessions of the same user
saved on the same date — NO saved session carries a nonzero allocated rent,
so it is false that exactly one of them does. -/
theorem C1_counterexample :
    ((saveAll (some profileNoRent) [baseSession, baseSession]).countP
        fun t => decide (t.vehicle_rent ≠ 0)) = 0
    ∧ (saveAll (some profileNoRent) [baseSession, baseSession]).length = 2 := by
  decide

/-- C1 amended: per save, the allocated rent is the profile's daily rent
figure when no other session of the user exists on the date (self excluded
on update) and zero when one exists; consequently, among same-date sessions
created sequentially, the first-saved carries the daily rent figure — which
may itself be zero — every other carries zero, and hence AT MOST one (not
exactly one) carries a nonzero allocated rent. -/
theorem C1_amended_rent_allocation (p : UserProfile) (d : Date)
    (inputs : List WorkSession) (hne : inputs ≠ [])
    (hd : ∀ s ∈ inputs, s.date = d) :
    (∀ s : WorkSession, s.date = d →
      (WorkSession.save (some p) false s).vehicle_rent = dailyRentCost p d)
    ∧ (∀ s : WorkSession, (WorkSession.save (some p) true s).vehicle_rent = 0)
    ∧ ((saveAll (some p) inputs).head?.map (·.vehicle_rent)
        = some (dailyRentCost p d))
    ∧ (∀ t ∈ (saveAll (some p) inputs).tail, t.vehicle_rent = 0)
    ∧ ((saveAll (some p) inputs).countP fun t => decide (t.vehicle_rent ≠ 0)) ≤ 1 := by
  rcases inputs with _ | ⟨s0, rest⟩
  · exact absurd rfl hne
  have hs0 : s0.date = d := hd s0 (by simp)
  have hrest : ∀ s ∈ rest, s.date = d := fun s hs => hd s (by simp [hs])
  have hlist := saveAll_same_date (some p) d s0 rest hs0 hrest
  have hfirst : ∀ s : WorkSession, s.date = d →
      (WorkSession.save (some p) false s).vehicle_rent = dailyRentCost p d := by
    intro s hs
    rw [save_rent, if_neg (by simp), hs]
  have hzero : ∀ s : WorkSession,
      (WorkSession.save (some p) true s).vehicle_rent = 0 := by
    intro s
    rw [save_rent, if_pos rfl]
  refine ⟨hfirst, hzero, ?_, ?_, ?_⟩
  · rw [hlist]
    simp [hfirst s0 hs0]
  · rw [hlist]
    intro t ht
    simp only [List.tail_cons, List.mem_map] at ht
    rcases ht with ⟨u, _, hu⟩
    rw [← hu]
    exact hzero u
  · rw [hlist]
    rw [List.countP_cons]
    have htail : (rest.map (WorkSession.save (some p) true)).countP
        (fun t => decide (t.vehicle_rent ≠ 0)) = 0 := by
      rw [List.countP_eq_zero]
      intro t ht
      simp only [List.mem_map] at ht
      rcases ht with ⟨u, _, hu⟩
      simp [← hu, hzero u]
    rw [htail]
    split <;> omega

/-- Witness for `C1_amended_rent_allocation`: two same-date sessions of a
user with a 70-per-week rent — the first saved carries rent 10, the second
carries 0, and exactly one nonzero rent is carried in this case. -/
theorem C1_amended_rent_allocation_witness :
    ((saveAll (some { profileNoRent with rent_frequency := "weekly", rent_amount := 70 })
        [baseSession, baseSession]).head?.map (·.vehicle_rent)
      = some (dailyRentCost
          { profileNoRent with rent_frequency := "weekly", rent_amount := 70 }
          baseSession.date))
    ∧ (∀ t ∈ (saveAll (some { profileNoRent with rent_frequency := "weekly", rent_amount := 70 })
        [baseSession, baseSession]).tail, t.vehicle_rent = 0)
    ∧ ((saveAll (some { profileNoRent with rent_frequency := "weekly", rent_amount := 70 })
        [baseSession, baseSession]).countP fun t => decide (t.vehicle_rent ≠ 0)) ≤ 1 :=
  ((C1_amended_rent_allocation
      { profileNoRent with rent_frequency := "weekly", rent_amount := 70 }
      baseSession.date [baseSession, baseSession] (by simp)
      (by intro s hs; simp only [List.mem_cons, List.not_mem_nil, or_false] at hs
          rcases hs with h | h <;> rw [h])).2.2 :)

/-- `moreRecent` is transitive. -/
theorem moreRecent_trans (a b c : WorkSession) :
    moreRecent a b = true → moreRecent b c = true → moreRecent a c = true := by
  simp only [moreRecent, decide_eq_true_eq]
  exact fun h1 h2 => le_trans h2 h1

/-- `moreRecent` is total. -/
theorem moreRecent_total (a b : WorkSession) :
    (moreRecent a b || moreRecent b a) = true := by
  simp only [moreRecent, Bool.or_eq_true, decide_eq_true_eq]
  exact le_total (recencyKey b) (recencyKey a)

/-- C10: whatever the period selector and reference date, the dashboard's
recent-sessions list is computed over ALL of the user's sessions (it equals
the period-independent `recentSessions all`), holds at most 5 entries, and
is ordered by descending date then descending start time (adjacent-pairwise,
their lexicographic recency keys are non-increasing). -/
theorem C10_recent_sessions_period_independent (period : String) (today : Date)
    (all : List WorkSession) :
    ((dashboardMetrics period today all).recent_sessions = recentSessions all)
    ∧ ((dashboardMetrics period today all).recent_sessions.length ≤ 5)
    ∧ (dashboardMetrics period today all).recent_sessions.Pairwise
        (fun a b => recencyKey b ≤ recencyKey a) := by
  refine ⟨rfl, ?_, ?_⟩
  · simp only [dashboardMetrics, recentSessions, List.length_take]
    exact min_le_left _ _
  · have hs := List.sorted_mergeSort moreRecent_trans moreRecent_total all
    have hp : (all.mergeSort moreRecent).Pairwise
        (fun a b => recencyKey b ≤ recencyKey a) := by
      refine hs.imp ?_
      intro a b h
      simpa [moreRecent] using h
    exact List.Pairwise.sublist (List.take_sublist 5 _) hp
